import Mathlib

/-!
Verification development for the stream-companion overlay animation engine.

This file shallowly embeds the parts of the repository that the verified
properties talk about:

* `frontend/shared/js/AnimationSequencer.js` — the `AnimationSequencer`
  class: behavior-step parsing (`build`, `_addStep` and the per-step-type
  helpers), the playback state machine (`play`, `pause`, `stop`,
  `restart`) and the live property patch (`updateProperties`).
* the overlay `renderElement` integration fragment, embedded from the
  verbatim excerpt in the AnimationSequencer implementation notes
  (the overlay HTML file itself is not part of the sources here).
* the backend property validator `validate_element_properties`, embedded
  from the verbatim code listing in the positioning specification
  document (the service file itself is not part of the sources here).

Times are rationals measured in seconds (the source divides millisecond
durations by 1000).  The GSAP timeline is modelled as the list of scheduled
tweens in insertion order, each carrying its resolved start position and
duration.  The three position arguments the source actually passes to
GSAP are modelled by `Position`:

* omitted position — the tween is appended at the current end of the
  timeline;
* the string `<` — the tween starts at the start of the most recently
  added tween (GSAP resolves `<` against its `_recent` child; on an empty
  timeline this resolves to 0);
* the empty string — GSAP's position parser only treats a string
  specially when `isNaN(position)` holds or the string is a known label;
  `isNaN("")` is `false`, so the empty string falls through to numeric
  coercion `+""` and places the tween at absolute time 0.

Console output is modelled by structured `LogEntry` values, DOM side
effects (`gsap.set` calls against the element) by `DomWrite` values.
-/

namespace StreamCompanion

/-- A primitive JavaScript value occurring as a property value inside a
behavior step or a property patch.  `lundef` stands for `undefined`. -/
inductive JsLit where
  | lnum (q : ℚ)
  | lstr (s : String)
  | lbool (b : Bool)
  | lundef
  deriving DecidableEq, Repr

/-- One entry of an `animate_property` step's `properties` array:
`{property, to, duration, modulation}` as read by the source.  Absent
fields are `none`. -/
structure PropAnim where
  property : Option String
  «to» : Option JsLit
  duration : Option ℚ
  modulation : Option String
  deriving DecidableEq, Repr

/-- The value of `step.properties`: an array (used by `animate_property`)
or a plain object (used by `set`). -/
inductive PropsVal where
  | parr (entries : List PropAnim)
  | pobj (kv : List (String × JsLit))
  deriving DecidableEq, Repr

/-- A behavior step as the sequencer reads it.  `nonObj` covers every
value that fails the `!step || typeof step !== 'object'` guard of
`_addStep` (null, numbers, strings, booleans).  `obj` records the four
fields the step helpers read; a field the step does not carry is `none`. -/
inductive Step where
  | nonObj
  | obj (type : Option String) (duration : Option ℚ) (animation : Option String)
        (properties : Option PropsVal)
  deriving DecidableEq, Repr

/-- JavaScript `v || d` for a numeric field: `null`/`undefined` (`none`)
and `0` are falsy and yield the default. -/
def jsOrNum (v : Option ℚ) (d : ℚ) : ℚ :=
  match v with
  | none => d
  | some q => if q = 0 then d else q

/-- JavaScript `v || d` for a string field: `null`/`undefined` and the
empty string are falsy and yield the default. -/
def jsOrStr (v : Option String) (d : String) : String :=
  match v with
  | none => d
  | some s => if s = "" then d else s

/-- A numeric duration field is JavaScript-falsy: absent (`null`) or `0`. -/
def jsFalsyNum (v : Option ℚ) : Prop := v = none ∨ v = some 0

/-- The `animationCatalog` built in the constructor.  `swipe` reads
`window.innerWidth` at construction time, so the catalog is parameterised
by it. -/
def animationCatalog (innerWidth : ℚ) : List (String × List (String × List ℚ)) :=
  [("fade-in", [("opacity", [0, 1])]),
   ("fade-out", [("opacity", [1, 0])]),
   ("slide-in", [("x", [-100, 0]), ("opacity", [0, 1])]),
   ("slide-out", [("x", [0, 100]), ("opacity", [1, 0])]),
   ("scale-in", [("scale", [0, 1]), ("opacity", [0, 1])]),
   ("scale-out", [("scale", [1, 0]), ("opacity", [1, 0])]),
   ("explosion", [("scale", [0, 1]), ("opacity", [0, 1])]),
   ("pop", [("scale", [1/2, 6/5, 1]), ("opacity", [0, 1, 1])]),
   ("spin", [("rotation", [0, 360])]),
   ("flip", [("rotationY", [0, 360])]),
   ("zoom", [("scale", [1/2, 1])]),
   ("fly", [("x", [-200, 0]), ("y", [-200, 0]), ("opacity", [0, 1])]),
   ("swipe", [("x", [innerWidth, 0]), ("opacity", [0, 1])])]

/-- The `easingCatalog` built in the constructor. -/
def easingCatalog : List (String × String) :=
  [("linear", "none"),
   ("ease-in", "power1.in"),
   ("ease-out", "power1.out"),
   ("ease-in-out", "power1.inOut"),
   ("cubic-bezier", "power2.inOut")]

/-- `_resolveEasing(propAnim.modulation || 'linear')` as called from
`_addAnimatePropertyStep`: a falsy modulation becomes `linear`; a string
is looked up in the easing catalog with fallback `power1.inOut`. -/
def resolveEasing (modulation : Option String) : String :=
  (easingCatalog.lookup (jsOrStr modulation "linear")).getD "power1.inOut"

/-- `_buildAnimationProps`: looks the preset up in the animation catalog;
an unknown name yields `(none, none)` (the source's `{fromProps: null,
toProps: null}`).  For array values the first element feeds `fromProps`
and the last feeds `toProps`, exactly as in the source. -/
def buildAnimationProps (innerWidth : ℚ) (animationName : String) :
    Option (List (String × ℚ)) × Option (List (String × ℚ)) :=
  match (animationCatalog innerWidth).lookup animationName with
  | none => (none, none)
  | some animProps =>
      (some (animProps.filterMap fun e => (e.2.head?).map fun v => (e.1, v)),
       some (animProps.filterMap fun e => (e.2.getLast?).map fun v => (e.1, v)))

/-- The payload of one scheduled GSAP operation. -/
inductive TweenKind where
  | fromToEl (fromProps toProps : List (String × ℚ)) (ease : String)
  | toEl (props : List (String × JsLit)) (ease : String)
  | toDummy
  | setEl (props : PropsVal)
  deriving DecidableEq, Repr

/-- One scheduled tween: resolved start position and duration in seconds,
plus the operation. -/
structure Tween where
  start : ℚ
  dur : ℚ
  kind : TweenKind
  deriving DecidableEq, Repr

/-- GSAP `timeline.duration()`: the furthest end time of any child,
`0` for an empty timeline. -/
def tlDuration (tl : List Tween) : ℚ :=
  (tl.map fun t => t.start + t.dur).foldr max 0

/-- The position arguments the source passes to GSAP (see the file
header for the GSAP resolution rules each constructor models). -/
inductive Position where
  | append
  | prevStart
  | absolute (t : ℚ)
  deriving DecidableEq, Repr

/-- Resolve a position argument against the current timeline contents. -/
def resolvePosition (tl : List Tween) : Position → ℚ
  | .append => tlDuration tl
  | .prevStart => ((tl.getLast?).map Tween.start).getD 0
  | .absolute t => t

/-- Schedule one tween on the timeline. -/
def addTween (tl : List Tween) (pos : Position) (dur : ℚ) (kind : TweenKind) :
    List Tween :=
  tl ++ [⟨resolvePosition tl pos, dur, kind⟩]

/-- Structured stand-ins for the console output of the sequencer.  The
`dbgDisappear` constructor stands for the three plain debug logs at the
top of `_addDisappearStep`. -/
inductive LogEntry where
  | errorNotArray
  | warnInvalidFormat (i : ℕ)
  | warnUnknownType (i : ℕ) (t : Option String)
  | warnUnknownAnimation (i : ℕ) (name : String)
  | warnRequiresProperties (i : ℕ)
  | warnAnimateRequiresName (i : ℕ)
  | infoAppear (i : ℕ) (name : String) (dur : ℚ)
  | infoAnimateProperty (i : ℕ) (maxDur : ℚ)
  | infoAnimate (i : ℕ) (name : String) (dur : ℚ)
  | infoWait (i : ℕ) (dur : ℚ)
  | infoSet (i : ℕ)
  | dbgDisappear (i : ℕ)
  | infoDisappear (i : ℕ) (name : String) (dur : ℚ)
  | infoNoSteps
  | infoPlaying
  | infoPaused
  | infoStopped
  | infoRestarted
  | infoUpdatedProps
  deriving DecidableEq, Repr

/-- Whether a log entry is a `console.warn` call. -/
def isWarn : LogEntry → Bool
  | .warnInvalidFormat _ => true
  | .warnUnknownType _ _ => true
  | .warnUnknownAnimation _ _ => true
  | .warnRequiresProperties _ => true
  | .warnAnimateRequiresName _ => true
  | _ => false

/-- `_addAppearStep`: default duration 500 ms, default animation
`fade-in`; unknown preset warns and leaves the timeline untouched,
otherwise a `fromTo` tween with ease `power2.out` is appended. -/
def addAppearStep (w : ℚ) (tl : List Tween) (i : ℕ)
    (dur : Option ℚ) (anim : Option String) : List Tween × List LogEntry :=
  let duration := jsOrNum dur 500 / 1000
  let animation := jsOrStr anim "fade-in"
  match buildAnimationProps w animation with
  | (none, _) => (tl, [.warnUnknownAnimation i animation])
  | (some fromProps, toProps) =>
      (addTween tl .append duration (.fromToEl fromProps (toProps.getD []) "power2.out"),
       [.infoAppear i animation duration])

/-- `_addAnimatePropertyStep`: requires a non-empty `properties` array,
else warns.  Each entry gets its own tween; the source passes position
`<` for the first entry (`properties.indexOf(propAnim) === 0`; the
entries are distinct objects produced by JSON parsing, so `indexOf`
yields the entry's own index) and the empty string for all others, which
GSAP coerces to absolute position 0. -/
def addAnimatePropertyStep (tl : List Tween) (i : ℕ)
    (props : Option PropsVal) : List Tween × List LogEntry :=
  match props with
  | some (.parr (e0 :: es)) =>
      let entries := e0 :: es
      let maxDuration := (entries.map fun e => jsOrNum e.duration 1000 / 1000).foldl max 0
      let tl2 := entries.enum.foldl
        (fun acc ie =>
          addTween acc (if ie.1 = 0 then .prevStart else .absolute 0)
            (jsOrNum ie.2.duration 1000 / 1000)
            (.toEl [(ie.2.property.getD "undefined", ie.2.«to».getD .lundef)]
              (resolveEasing ie.2.modulation)))
        tl
      (tl2, [.infoAnimateProperty i maxDuration])
  | _ => (tl, [.warnRequiresProperties i])

/-- `_addAnimateStep`: the animation name is mandatory (falsy warns),
default duration 1000 ms; unknown preset warns, otherwise a `to` tween
with ease `power2.out` is appended. -/
def addAnimateStep (w : ℚ) (tl : List Tween) (i : ℕ)
    (dur : Option ℚ) (anim : Option String) : List Tween × List LogEntry :=
  let duration := jsOrNum dur 1000 / 1000
  match anim with
  | none => (tl, [.warnAnimateRequiresName i])
  | some a =>
      if a = "" then (tl, [.warnAnimateRequiresName i])
      else
        match (buildAnimationProps w a).2 with
        | none => (tl, [.warnUnknownAnimation i a])
        | some toProps =>
            (addTween tl .append duration
              (.toEl (toProps.map fun e => (e.1, JsLit.lnum e.2)) "power2.out"),
             [.infoAnimate i a duration])

/-- `_addWaitStep`: default duration 1000 ms; appends an empty tween on a
fresh dummy object as a pause. -/
def addWaitStep (tl : List Tween) (i : ℕ) (dur : Option ℚ) :
    List Tween × List LogEntry :=
  let duration := jsOrNum dur 1000 / 1000
  (addTween tl .append duration .toDummy, [.infoWait i duration])

/-- `_addSetStep`: `step.properties || {}` (an empty array is truthy and
kept as is); appends a zero-duration `set` at the end of the timeline. -/
def addSetStep (tl : List Tween) (i : ℕ) (props : Option PropsVal) :
    List Tween × List LogEntry :=
  let properties := props.getD (.pobj [])
  (addTween tl .append 0 (.setEl properties), [.infoSet i])

/-- `_addDisappearStep`: default duration 500 ms, default animation
`fade-out`; unknown preset warns, otherwise a `to` tween with ease
`power2.in` followed by a `set` of `visibility: hidden` is appended. -/
def addDisappearStep (w : ℚ) (tl : List Tween) (i : ℕ)
    (dur : Option ℚ) (anim : Option String) : List Tween × List LogEntry :=
  let duration := jsOrNum dur 500 / 1000
  let animation := jsOrStr anim "fade-out"
  match (buildAnimationProps w animation).2 with
  | none => (tl, [.dbgDisappear i, .warnUnknownAnimation i animation])
  | some toProps =>
      let tl1 := addTween tl .append duration
        (.toEl (toProps.map fun e => (e.1, JsLit.lnum e.2)) "power2.in")
      (addTween tl1 .append 0 (.setEl (.pobj [("visibility", .lstr "hidden")])),
       [.dbgDisappear i, .infoDisappear i animation duration])

/-- The cases of the `switch (stepType)` dispatch in `_addStep`;
`unknown` carries the original `step.type` value for the warning. -/
inductive StepType where
  | appear
  | animateProperty
  | animate
  | waitPause
  | setProps
  | disappear
  | unknown (t : Option String)
  deriving DecidableEq, Repr

/-- The discrimination performed by `switch (stepType)`: which case of
`_addStep` a `step.type` value selects. -/
def stepTypeOf : Option String → StepType
  | some "appear" => .appear
  | some "animate_property" => .animateProperty
  | some "animate" => .animate
  | some "wait" => .waitPause
  | some "set" => .setProps
  | some "disappear" => .disappear
  | other => .unknown other

/-- `_addStep`: the object guard followed by the `switch` dispatch on
`step.type`; an unknown or missing type warns. -/
def addStep (w : ℚ) (tl : List Tween) (i : ℕ) (st : Step) :
    List Tween × List LogEntry :=
  match st with
  | .nonObj => (tl, [.warnInvalidFormat i])
  | .obj ty dur anim props =>
      match stepTypeOf ty with
      | .appear => addAppearStep w tl i dur anim
      | .animateProperty => addAnimatePropertyStep tl i props
      | .animate => addAnimateStep w tl i dur anim
      | .waitPause => addWaitStep tl i dur
      | .setProps => addSetStep tl i props
      | .disappear => addDisappearStep w tl i dur anim
      | .unknown other => (tl, [.warnUnknownType i other])

/-- The loop body of `build`: each step is added in array order with its
index; the source's try/catch around `_addStep` never fires in this
model since every helper is total. -/
def buildSteps (w : ℚ) (i : ℕ) (tl : List Tween) : List Step → List Tween × List LogEntry
  | [] => (tl, [])
  | st :: rest =>
      let r1 := addStep w tl i st
      let r2 := buildSteps w (i + 1) r1.1 rest
      (r2.1, r1.2 ++ r2.2)

/-- The `behavior` field as stored on the sequencer: an array of steps,
or any truthy non-array value (`build` only tests `Array.isArray`). -/
inductive Behavior where
  | arr (steps : List Step)
  | notArr
  deriving DecidableEq, Repr

/-- The state of one `AnimationSequencer` instance: its behavior, the
children of its GSAP timeline, the timeline playhead (`pos`, seconds),
the timeline's paused flag and the class's own `isPlaying` flag. -/
structure AnimationSequencer where
  behavior : Behavior
  tweens : List Tween
  pos : ℚ
  paused : Bool
  isPlaying : Bool
  deriving DecidableEq, Repr

/-- The constructor: `this.behavior = behavior || []` (a falsy argument
becomes the empty array) and `gsap.timeline({ paused: true })`. -/
def mkAnimationSequencer (behavior : Option Behavior) : AnimationSequencer :=
  { behavior := behavior.getD (.arr [])
    tweens := []
    pos := 0
    paused := true
    isPlaying := false }

/-- `build()`: a non-array behavior logs an error and returns `this`
immediately — before `timeline.clear()` runs — leaving the state
untouched.  Otherwise the timeline is cleared and every step is added in
order.  The `onComplete` registration has no immediate state effect. -/
def build (w : ℚ) (s : AnimationSequencer) : AnimationSequencer × List LogEntry :=
  match s.behavior with
  | .notArr => (s, [.errorNotArray])
  | .arr steps =>
      let r := buildSteps w 0 [] steps
      ({ s with tweens := r.1 }, r.2)

/-- `play()`: a zero-duration timeline logs and no-ops; otherwise the
playing flag is set and `timeline.restart()` moves the playhead to 0 and
unpauses. -/
def play (s : AnimationSequencer) : AnimationSequencer × List LogEntry :=
  if tlDuration s.tweens = 0 then (s, [.infoNoSteps])
  else ({ s with isPlaying := true, pos := 0, paused := false }, [.infoPlaying])

/-- `pause()`: clears the playing flag and pauses the timeline in place. -/
def pause (s : AnimationSequencer) : AnimationSequencer × List LogEntry :=
  ({ s with isPlaying := false, paused := true }, [.infoPaused])

/-- A `gsap.set(domElement, vars)` call performed outside the timeline. -/
inductive JsArg where
  | aobj (kv : List (String × JsLit))
  | aarr (vs : List JsLit)
  | anull
  | anum (q : ℚ)
  | astr (s : String)
  | abool (b : Bool)
  | aundef
  deriving DecidableEq, Repr

/-- JavaScript truthiness of a value passed to `updateProperties`. -/
def jsTruthy : JsArg → Bool
  | .aobj _ => true
  | .aarr _ => true
  | .anull => false
  | .anum q => !(q = 0)
  | .astr s => !(s = "")
  | .abool b => b
  | .aundef => false

/-- Whether `typeof v === 'object'` holds (arrays and `null` included). -/
def typeofIsObject : JsArg → Bool
  | .aobj _ => true
  | .aarr _ => true
  | .anull => true
  | _ => false

/-- A direct DOM side effect of the sequencer. -/
inductive DomWrite where
  | gsapSet (vars : JsArg)
  deriving DecidableEq, Repr

/-- `stop()`: pause, reset the playhead to 0 and force the element to the
canonical reset state via `gsap.set(el, {opacity: 0, transform: 'none'})`. -/
def stop (s : AnimationSequencer) :
    AnimationSequencer × List DomWrite × List LogEntry :=
  ({ s with isPlaying := false, paused := true, pos := 0 },
   [.gsapSet (.aobj [("opacity", .lnum 0), ("transform", .lstr "none")])],
   [.infoStopped])

/-- `restart()`: unconditionally sets the playing flag and restarts the
timeline from 0 — unlike `play()`, there is no empty-timeline guard. -/
def restart (s : AnimationSequencer) : AnimationSequencer × List LogEntry :=
  ({ s with isPlaying := true, pos := 0, paused := false }, [.infoRestarted])

/-- `updateProperties(properties)`: returns without any effect unless the
sequencer is playing and the argument is a truthy value of type object;
otherwise every given property is applied to the element in one
`gsap.set` call — the source performs no allow-list filtering and no
validator call (its comment: element type validation happens
server-side). -/
def updateProperties (s : AnimationSequencer) (properties : JsArg) :
    AnimationSequencer × List DomWrite × List LogEntry :=
  if !s.isPlaying || !jsTruthy properties || !typeofIsObject properties then
    (s, [], [])
  else
    (s, [.gsapSet properties], [.infoUpdatedProps])

/-- An element-update payload as the overlay render path reads it:
the `playing` flag, the behavior value and the properties map (the
render fragment below never reads `properties`; the field is carried so
that property-only updates can be stated). -/
structure JsElement where
  playing : Bool
  behavior : Behavior
  properties : List (String × JsLit)
  deriving DecidableEq, Repr

/-- The per-element DOM node state the render path touches: its CSS
classes and the sequencer stored on it as `elementDiv.sequencer`. -/
structure ElementDiv where
  classes : List String
  sequencer : Option AnimationSequencer
  deriving DecidableEq, Repr

/-- Modelled from the spec: the overlay `renderElement` sequencer
integration (the overlay HTML file is not among the sources here),
embedded from the verbatim excerpt in the AnimationSequencer
implementation notes.  When `playing` is true and `behavior` is a
non-empty array, a NEW `AnimationSequencer` is constructed, built and
played, and stored on the node — unconditionally, on every update.  When
`playing` is false, any stored sequencer is stopped and removed.  No
path calls `updateProperties`. -/
def renderElement (w : ℚ) (e : JsElement) (div : ElementDiv) :
    ElementDiv × List DomWrite × List LogEntry :=
  if e.playing then
    let div1 := { div with classes := div.classes ++ ["playing"] }
    match e.behavior with
    | .arr steps =>
        if 0 < steps.length then
          let r1 := build w (mkAnimationSequencer (some e.behavior))
          let r2 := play r1.1
          ({ div1 with sequencer := some r2.1 }, [], r1.2 ++ r2.2)
        else (div1, [], [])
    | .notArr => (div1, [], [])
  else
    let div1 := { div with classes := div.classes ++ ["stopped"] }
    match div.sequencer with
    | some s =>
        let r := stop s
        ({ div1 with sequencer := none }, r.2.1, r.2.2)
    | none => (div1, [], [])

/-- A Python value occurring in an element `properties` dict, as the
backend validator inspects it. -/
inductive PVal where
  | pnum (q : ℚ)
  | pbool (b : Bool)
  | pstr (s : String)
  | pnone
  | pdict (kv : List (String × PVal))
  | plist (vs : List PVal)

/-- Structured stand-ins for the validator's error message strings. -/
inductive ValErr where
  | notAllowed (key : String) (elementType : String)
  | posXRange
  | posYRange
  | opacityRange
  deriving DecidableEq, Repr

/-- Modelled from the spec: `ELEMENT_PROPERTY_SCHEMAS` of
`element_service.py` (the service file is not among the sources here),
embedded from the verbatim listing in the positioning specification. -/
def ELEMENT_PROPERTY_SCHEMAS : List (String × List String) :=
  [("image", ["position", "size", "opacity", "rotation", "scale_x", "scale_y",
              "z_index", "filter", "aspect_ratio"]),
   ("video", ["position", "size", "opacity", "rotation", "scale_x", "scale_y",
              "z_index", "volume", "autoplay", "loop", "aspect_ratio"]),
   ("audio", ["volume", "autoplay", "loop"]),
   ("text", ["position", "size", "opacity", "rotation", "scale_x", "scale_y",
             "z_index", "color", "font_family", "font_size", "font_weight",
             "text_align", "text_shadow"]),
   ("card", ["position", "size", "opacity", "rotation", "scale_x", "scale_y",
             "z_index", "revealed", "front_text", "back_text", "media_roles"]),
   ("timer", ["position", "size", "opacity", "rotation", "scale_x", "scale_y",
              "z_index", "color", "font_family", "font_size", "format"]),
   ("counter", ["position", "size", "opacity", "rotation", "scale_x", "scale_y",
                "z_index", "color", "font_family", "font_size"]),
   ("canvas", ["position", "size", "opacity", "rotation", "scale_x", "scale_y",
               "z_index", "background_color"]),
   ("animation", [])]

/-- Python `isinstance(v, (int, float))`; booleans are a subclass of
`int` in Python. -/
def pyIsNumber : PVal → Bool
  | .pnum _ => true
  | .pbool _ => true
  | _ => false

/-- The numeric value of a Python number (`True` counts as 1, `False`
as 0). -/
def pyNumVal : PVal → ℚ
  | .pnum q => q
  | .pbool b => if b then 1 else 0
  | _ => 0

/-- Python `d.get(k)`: `None` when the key is absent. -/
def dictGet (kv : List (String × PVal)) (k : String) : PVal :=
  (kv.lookup k).getD .pnone

/-- The combined check `isinstance(v, (int, float)) and 0 <= v <= 1`
whose failure appends a range error (the source writes it negated with a
short-circuit `or`, so the subscript access is only reached for
numbers). -/
def pyNumIn01 (v : PVal) : Bool :=
  pyIsNumber v && decide (0 ≤ pyNumVal v) && decide (pyNumVal v ≤ 1)

/-- The opacity clause of the validator. -/
def opacityErrs (properties : List (String × PVal)) : List ValErr :=
  match properties.lookup "opacity" with
  | none => []
  | some v => if pyNumIn01 v then [] else [.opacityRange]

/-- Modelled from the spec: `validate_element_properties` of
`element_service.py` (the service file is not among the sources here),
embedded from the verbatim listing in the positioning specification.
Unknown keys are collected first (one error per offending key, in dict
order), then `position.x`/`position.y` are checked to be numbers in
`[0, 1]`, then `opacity`; nothing else is checked — in particular `size`
values and the `anchor` field are never inspected.  A `position` value
that is not a dict raises `AttributeError` at `pos.get`, modelled by the
`Except` error. -/
def validate_element_properties (element_type : String)
    (properties : List (String × PVal)) : Except Unit (Bool × List ValErr) :=
  let allowed_keys := (ELEMENT_PROPERTY_SCHEMAS.lookup element_type).getD []
  let keyErrs := properties.filterMap fun kv =>
    if allowed_keys.contains kv.1 then none
    else some (ValErr.notAllowed kv.1 element_type)
  match properties.lookup "position" with
  | some (.pdict pos) =>
      let posErrs :=
        (if pyNumIn01 (dictGet pos "x") then [] else [ValErr.posXRange]) ++
        (if pyNumIn01 (dictGet pos "y") then [] else [ValErr.posYRange])
      let errors := keyErrs ++ posErrs ++ opacityErrs properties
      .ok (errors.isEmpty, errors)
  | some _ => .error ()
  | none =>
      let errors := keyErrs ++ opacityErrs properties
      .ok (errors.isEmpty, errors)

/-- The invalid-step conditions under which `_addStep` warns and leaves
the timeline untouched: a non-object step, a missing or unknown step
type, an unknown animation preset for `appear`/`animate`/`disappear`, a
missing animation name for `animate`, and a missing, non-array or empty
`properties` list for `animate_property`. -/
def stepInvalid (w : ℚ) : Step → Bool
  | .nonObj => true
  | .obj ty _dur anim props =>
      match stepTypeOf ty with
      | .appear => ((buildAnimationProps w (jsOrStr anim "fade-in")).1).isNone
      | .animateProperty =>
          match props with
          | some (.parr (_ :: _)) => false
          | _ => true
      | .animate =>
          match anim with
          | none => true
          | some a => decide (a = "") || ((buildAnimationProps w a).2).isNone
      | .waitPause => false
      | .setProps => false
      | .disappear => ((buildAnimationProps w (jsOrStr anim "fade-out")).2).isNone
      | .unknown _ => true

/-- A well-formed `wait` step with an explicit millisecond duration. -/
def waitStep (d : ℚ) : Step := .obj (some "wait") (some d) none none

/-- A well-formed `animate_property` entry animating one property to a
numeric value over an explicit millisecond duration, no modulation. -/
def apEntry (p : String) (v d : ℚ) : PropAnim :=
  { property := some p, «to» := some (.lnum v), duration := some d, modulation := none }

/-- The behavior of the claimed parallel-animation test: a 1000 ms wait
followed by an `animate_property` step with entries of 300 ms and
900 ms. -/
def behWaitThenAp : Behavior :=
  .arr [waitStep 1000,
        .obj (some "animate_property") none none
          (some (.parr [apEntry "x" 100 300, apEntry "y" 200 900]))]

/-- A behavior consisting of one 1000 ms wait step. -/
def behOneWait : Behavior := .arr [waitStep 1000]

/-- A sequencer built from an empty behavior array: its timeline has
zero total duration. -/
def seqEmptyBuilt : AnimationSequencer :=
  (build 1920 (mkAnimationSequencer (some (.arr [])))).1

/-- A sequencer built from `behOneWait` (one 1-second tween). -/
def seqOneWaitBuilt : AnimationSequencer :=
  (build 1920 (mkAnimationSequencer (some behOneWait))).1

/-- A sequencer whose `behavior` field was reassigned to a non-array
value after a successful `build` of `behOneWait`. -/
def staleSeq : AnimationSequencer := { seqOneWaitBuilt with behavior := .notArr }

/-- A sequencer built from `behOneWait` and then played. -/
def playingSeq : AnimationSequencer := (play seqOneWaitBuilt).1

/-- A live property patch carrying the structural `media_roles` field
next to a visual one. -/
def mediaRolesPatch : JsArg :=
  .aobj [("media_roles", .lstr "front_background"), ("opacity", .lnum (1/2))]

/-- The `behOneWait` sequencer as it stands mid-playback: playing, with
the playhead at 0.5 s (the frame-by-frame advance of the playhead is the
host library's business; the state is reachable by `build` then `play`
followed by half a second of ticking). -/
def seqMidPlay : AnimationSequencer :=
  { behavior := behOneWait
    tweens := [⟨0, 1, .toDummy⟩]
    pos := 1/2
    paused := false
    isPlaying := true }

/-- The DOM node of the mid-playback element. -/
def divMidPlay : ElementDiv := { classes := [], sequencer := some seqMidPlay }

/-- An element update identical to the running element except for its
`properties` map: `playing` still true, `behavior` unchanged. -/
def elemPropsOnlyUpdate : JsElement :=
  { playing := true, behavior := behOneWait
    properties := [("opacity", .lnum (1/2))] }

/-- The key violations checked by the claimed size/anchor validation: an
out-of-range `size` and an unknown `anchor` on an otherwise valid
position. -/
def badSizeAnchorProps : List (String × PVal) :=
  [("size", .pdict [("width", .pnum 5), ("height", .pnum (-1))]),
   ("position", .pdict [("x", .pnum 0), ("y", .pnum 1), ("anchor", .pstr "bogus")])]

/-- The per-step-type default-duration contract: with a falsy `duration`
field the built tween has the type's default length (in seconds), and
the result is identical to building the same step with the field absent.
`appear` and `disappear` default to 0.5 s, `animate` and `wait` to 1 s,
and each `animate_property` entry to 1 s (`disappear` also appends its
zero-length visibility `set`). -/
def defaultDurationSpec (w : ℚ) (d : Option ℚ) : Prop :=
  (addStep w [] 0 (.obj (some "appear") d none none) =
      addStep w [] 0 (.obj (some "appear") none none none)
    ∧ (addStep w [] 0 (.obj (some "appear") d none none)).1.map Tween.dur = [1/2])
  ∧ (addStep w [] 0 (.obj (some "disappear") d none none) =
      addStep w [] 0 (.obj (some "disappear") none none none)
    ∧ (addStep w [] 0 (.obj (some "disappear") d none none)).1.map Tween.dur = [1/2, 0])
  ∧ (addStep w [] 0 (.obj (some "animate") d (some "spin") none) =
      addStep w [] 0 (.obj (some "animate") none (some "spin") none)
    ∧ (addStep w [] 0 (.obj (some "animate") d (some "spin") none)).1.map Tween.dur = [1])
  ∧ (addStep w [] 0 (.obj (some "wait") d none none) =
      addStep w [] 0 (.obj (some "wait") none none none)
    ∧ (addStep w [] 0 (.obj (some "wait") d none none)).1.map Tween.dur = [1])
  ∧ (addStep w [] 0 (.obj (some "animate_property") none none
        (some (.parr [{ property := some "x", «to» := some (.lnum 1),
                        duration := d, modulation := none }]))) =
      addStep w [] 0 (.obj (some "animate_property") none none
        (some (.parr [{ property := some "x", «to» := some (.lnum 1),
                        duration := none, modulation := none }])))
    ∧ (addStep w [] 0 (.obj (some "animate_property") none none
        (some (.parr [{ property := some "x", «to» := some (.lnum 1),
                        duration := d, modulation := none }])))).1.map Tween.dur = [1])

/-- An invalid step adds no tween and logs (among other entries) a
`console.warn`, whatever the surrounding timeline and step index. -/
theorem addStep_invalid (w : ℚ) (tl : List Tween) (i : ℕ) (st : Step)
    (h : stepInvalid w st = true) :
    (addStep w tl i st).1 = tl ∧ ∃ e ∈ (addStep w tl i st).2, isWarn e = true := by
  cases st with
  | nonObj => exact ⟨rfl, ⟨.warnInvalidFormat i, List.mem_cons_self _ _, rfl⟩⟩
  | obj ty dur anim props =>
    simp only [stepInvalid] at h
    simp only [addStep]
    cases hty : stepTypeOf ty with
    | appear =>
      simp only [hty] at h
      simp only [hty, addAppearStep]
      cases hbp : buildAnimationProps w (jsOrStr anim "fade-in") with
      | mk fp tp =>
        cases fp with
        | none =>
            simp only [hbp]
            exact ⟨by trivial, ⟨.warnUnknownAnimation i (jsOrStr anim "fade-in"),
              List.mem_cons_self _ _, rfl⟩⟩
        | some f => rw [hbp] at h; simp at h
    | animateProperty =>
      simp only [hty] at h
      simp only [hty, addAnimatePropertyStep]
      cases props with
      | none => exact ⟨rfl, ⟨.warnRequiresProperties i, List.mem_cons_self _ _, rfl⟩⟩
      | some pv =>
        cases pv with
        | pobj kv => exact ⟨rfl, ⟨.warnRequiresProperties i, List.mem_cons_self _ _, rfl⟩⟩
        | parr entries =>
          cases entries with
          | nil => exact ⟨rfl, ⟨.warnRequiresProperties i, List.mem_cons_self _ _, rfl⟩⟩
          | cons e0 es => simp at h
    | animate =>
      simp only [hty] at h
      simp only [hty, addAnimateStep]
      cases anim with
      | none => exact ⟨rfl, ⟨.warnAnimateRequiresName i, List.mem_cons_self _ _, rfl⟩⟩
      | some a =>
        by_cases ha : a = ""
        · simp only [ha, if_pos rfl]
          exact ⟨by trivial, ⟨.warnAnimateRequiresName i, List.mem_cons_self _ _, rfl⟩⟩
        · simp only [if_neg ha]
          simp only [decide_eq_true_eq] at h
          cases hbp : (buildAnimationProps w a).2 with
          | none =>
              simp only [hbp]
              exact ⟨by trivial, ⟨.warnUnknownAnimation i a, List.mem_cons_self _ _, rfl⟩⟩
          | some tp =>
              rw [Bool.or_eq_true, decide_eq_true_eq] at h
              rcases h with h | h
              · exact absurd h ha
              · rw [hbp] at h; simp at h
    | waitPause => simp only [hty] at h; exact absurd h (by decide)
    | setProps => simp only [hty] at h; exact absurd h (by decide)
    | disappear =>
      simp only [hty] at h
      simp only [hty, addDisappearStep]
      cases hbp : (buildAnimationProps w (jsOrStr anim "fade-out")).2 with
      | none =>
          simp only [hbp]
          refine ⟨by trivial, ⟨.warnUnknownAnimation i (jsOrStr anim "fade-out"), ?_, rfl⟩⟩
          exact List.mem_cons_of_mem _ (List.mem_cons_self _ _)
      | some tp => rw [hbp] at h; simp at h
    | unknown t =>
      simp only [hty]
      exact ⟨by trivial, ⟨.warnUnknownType i t, List.mem_cons_self _ _, rfl⟩⟩

/-- The tween a step schedules does not depend on the step's index
(only the log messages mention it). -/
theorem addStep_fst_index (w : ℚ) (tl : List Tween) (st : Step) (i j : ℕ) :
    (addStep w tl i st).1 = (addStep w tl j st).1 := by
  cases st with
  | nonObj => rfl
  | obj ty dur anim props =>
    simp only [addStep]
    cases hty : stepTypeOf ty with
    | appear =>
      simp only [hty, addAppearStep]
      cases hbp : buildAnimationProps w (jsOrStr anim "fade-in") with
      | mk fp tp => cases fp <;> simp [hbp]
    | animateProperty =>
      simp only [hty, addAnimatePropertyStep]
      cases props with
      | none => rfl
      | some pv =>
        cases pv with
        | pobj kv => rfl
        | parr entries => cases entries <;> rfl
    | animate =>
      simp only [hty, addAnimateStep]
      cases anim with
      | none => rfl
      | some a =>
        by_cases ha : a = ""
        · simp [ha]
        · simp only [if_neg ha]
          cases hbp : (buildAnimationProps w a).2 <;> simp [hbp]
    | waitPause => simp only [hty]; rfl
    | setProps => simp only [hty]; rfl
    | disappear =>
      simp only [hty, addDisappearStep]
      cases hbp : (buildAnimationProps w (jsOrStr anim "fade-out")).2 <;> simp [hbp]
    | unknown t => simp only [hty]

/-- The timeline built from a step list does not depend on the starting
index. -/
theorem buildSteps_fst_index (w : ℚ) (steps : List Step) :
    ∀ i j : ℕ, ∀ tl : List Tween,
      (buildSteps w i tl steps).1 = (buildSteps w j tl steps).1 := by
  induction steps with
  | nil => intro i j tl; rfl
  | cons st rest ih =>
      intro i j tl
      simp only [buildSteps]
      rw [addStep_fst_index w tl st i j]
      exact ih (i + 1) (j + 1) _

/-- Skipping an invalid step leaves the built timeline exactly as if the
step were absent: the valid steps around it schedule the same tweens in
the same order. -/
theorem buildSteps_skip (w : ℚ) (st : Step) (hinv : stepInvalid w st = true) :
    ∀ xs : List Step, ∀ i : ℕ, ∀ tl : List Tween, ∀ ys : List Step,
      (buildSteps w i tl (xs ++ st :: ys)).1 = (buildSteps w i tl (xs ++ ys)).1 := by
  intro xs
  induction xs with
  | nil =>
      intro i tl ys
      simp only [List.nil_append, buildSteps]
      rw [(addStep_invalid w tl i st hinv).1]
      exact buildSteps_fst_index w ys (i + 1) i tl
  | cons x xs ih =>
      intro i tl ys
      simp only [List.cons_append, buildSteps]
      exact ih (i + 1) _ ys

/-- Building a list that contains an invalid step logs a warning. -/
theorem buildSteps_warn (w : ℚ) (st : Step) (hinv : stepInvalid w st = true) :
    ∀ xs : List Step, ∀ i : ℕ, ∀ tl : List Tween, ∀ ys : List Step,
      ∃ e ∈ (buildSteps w i tl (xs ++ st :: ys)).2, isWarn e = true := by
  intro xs
  induction xs with
  | nil =>
      intro i tl ys
      simp only [List.nil_append, buildSteps]
      obtain ⟨e, he, hw⟩ := (addStep_invalid w tl i st hinv).2
      exact ⟨e, List.mem_append_left _ he, hw⟩
  | cons x xs ih =>
      intro i tl ys
      simp only [List.cons_append, buildSteps]
      obtain ⟨e, he, hw⟩ := ih (i + 1) ((addStep w tl i x).1) ys
      exact ⟨e, List.mem_append_right _ he, hw⟩

/-- Building the one-wait behavior yields a single one-second dummy
tween starting at 0. -/
theorem seqOneWaitBuilt_eq :
    seqOneWaitBuilt =
      { behavior := behOneWait, tweens := [⟨0, 1, .toDummy⟩],
        pos := 0, paused := true, isPlaying := false } := by
  norm_num [seqOneWaitBuilt, build, mkAnimationSequencer, behOneWait, waitStep,
    buildSteps, addStep, stepTypeOf, addWaitStep, addTween, resolvePosition,
    tlDuration, jsOrNum]

/-- The one-wait timeline lasts exactly one second. -/
theorem tlDuration_oneWait : tlDuration [⟨0, 1, TweenKind.toDummy⟩] = 1 := by
  have h : (0 : ℚ) ≤ 0 + 1 := by norm_num
  simp [tlDuration, max_eq_left h]

/-- Playing the built one-wait sequencer takes the non-empty branch of
`play`. -/
theorem playingSeq_eq :
    playingSeq =
      { behavior := behOneWait, tweens := [⟨0, 1, .toDummy⟩],
        pos := 0, paused := false, isPlaying := true } := by
  rw [playingSeq, seqOneWaitBuilt_eq]
  simp [play, tlDuration_oneWait]

/-- The catalog resolution of `fade-in`, closed by computation. -/
theorem buildAnimationProps_fadeIn (w : ℚ) :
    buildAnimationProps w "fade-in" =
      (some [("opacity", 0)], some [("opacity", 1)]) := rfl

/-- The catalog resolution of `fade-out`, closed by computation. -/
theorem buildAnimationProps_fadeOut (w : ℚ) :
    buildAnimationProps w "fade-out" =
      (some [("opacity", 1)], some [("opacity", 0)]) := rfl

/-- The catalog resolution of `spin`, closed by computation. -/
theorem buildAnimationProps_spin (w : ℚ) :
    buildAnimationProps w "spin" =
      (some [("rotation", 0)], some [("rotation", 360)]) := rfl

/-- C1: evaluation of the render path at the failing input.  An element
update whose `playing` is true and whose `behavior` is the unchanged
one-wait array — i.e. a properties-only update — arrives while the
stored sequencer is mid-animation at playhead 0.5 s.  `renderElement`
replaces the stored sequencer with a freshly constructed, built and
played one whose playhead is 0: the running timeline's progress jumps to
0, contradicting the no-restart invariant (which the repository's
animation-framework document states: property updates while playing must
not disturb the running behavior). -/
theorem C1_property_only_update_restarts_sequencer :
    (renderElement 1920 elemPropsOnlyUpdate divMidPlay).1.sequencer =
      some (play (build 1920 (mkAnimationSequencer (some behOneWait))).1).1
    ∧ ((renderElement 1920 elemPropsOnlyUpdate divMidPlay).1.sequencer.map
        AnimationSequencer.pos) = some 0
    ∧ seqMidPlay.pos = 1/2 := by
  refine ⟨rfl, ?_, rfl⟩
  norm_num [renderElement, elemPropsOnlyUpdate, divMidPlay, behOneWait, waitStep,
    build, mkAnimationSequencer, buildSteps, addStep, stepTypeOf, addWaitStep,
    addTween, resolvePosition, tlDuration, jsOrNum, play]

/-- C2: evaluation of `build` at the failing input — a 1000 ms `wait`
followed by an `animate_property` step with 300 ms and 900 ms entries.
All three scheduled tweens start at timeline position 0: the first entry
is placed at `<` (the start of the most recently added tween, the wait,
which starts at 0) and the second at the empty-string position, which
GSAP coerces to absolute 0.  The step's entries therefore do not begin
at the step's start (1 s, after the wait), and the total timeline lasts
1 s instead of the 1.9 s the claim requires — the step adds no time at
all beyond the wait. -/
theorem C2_animate_property_entries_not_at_step_start :
    ((build 1920 (mkAnimationSequencer (some behWaitThenAp))).1.tweens.map
        Tween.start) = [0, 0, 0]
    ∧ ((build 1920 (mkAnimationSequencer (some behWaitThenAp))).1.tweens.map
        Tween.dur) = [1, 3/10, 9/10]
    ∧ tlDuration (build 1920 (mkAnimationSequencer (some behWaitThenAp))).1.tweens = 1 := by
  refine ⟨?_, ?_, ?_⟩ <;>
    norm_num [behWaitThenAp, waitStep, apEntry, build, mkAnimationSequencer,
      buildSteps, addStep, stepTypeOf, addWaitStep, addAnimatePropertyStep,
      addTween, resolvePosition, tlDuration, jsOrNum, jsOrStr, resolveEasing,
      easingCatalog, List.enum, List.enumFrom, max_def]

/-- C3 counterexample: while playing, `updateProperties` applies the
structural `media_roles` field (together with everything else in the
patch) to the element in a single unfiltered `gsap.set` call, with no
validator involved — refuting the claim that only allow-listed visual
properties are applied and `media_roles` is not. -/
theorem C3_counterexample_media_roles_applied :
    playingSeq.isPlaying = true
    ∧ updateProperties playingSeq mediaRolesPatch =
        (playingSeq, [.gsapSet mediaRolesPatch], [.infoUpdatedProps]) := by
  rw [playingSeq_eq]
  exact ⟨rfl, rfl⟩

/-- C3 amended: while the sequencer is playing, `updateProperties`
applies EVERY property of a truthy object argument directly to the
element via one `gsap.set` call — no allow-list, no schema validation,
structural fields included (the source defers validation to the
server side). -/
theorem C3_update_properties_applies_all (s : AnimationSequencer) (p : JsArg)
    (h1 : s.isPlaying = true) (h2 : jsTruthy p = true)
    (h3 : typeofIsObject p = true) :
    updateProperties s p = (s, [.gsapSet p], [.infoUpdatedProps]) := by
  simp [updateProperties, h1, h2, h3]

/-- C3 witness: the amended statement at the concrete playing sequencer
and the `media_roles` patch. -/
theorem C3_update_properties_applies_all_witness :
    updateProperties playingSeq mediaRolesPatch =
      (playingSeq, [.gsapSet mediaRolesPatch], [.infoUpdatedProps]) :=
  C3_update_properties_applies_all playingSeq mediaRolesPatch
    (by rw [playingSeq_eq]) rfl rfl

/-- C4 counterexample: on a sequencer whose built timeline is empty
(zero total duration), `play()` logs and no-ops — `isPlaying` stays
false — while `restart()` unconditionally sets `isPlaying` and restarts,
so the two calls do not produce the same resulting state. -/
theorem C4_counterexample_play_restart_differ_on_empty :
    (play seqEmptyBuilt).1.isPlaying = false
    ∧ (restart seqEmptyBuilt).1.isPlaying = true
    ∧ (play seqEmptyBuilt).1 ≠ (restart seqEmptyBuilt).1 := by
  refine ⟨by decide, by decide, by decide⟩

/-- C4 amended: whenever the built timeline has nonzero total duration,
`restart()` produces exactly the same resulting sequencer state as
`play()` — both restart the timeline from 0 and set the playing flag
(the console messages differ in wording only).  The equivalence fails
precisely on a zero-duration timeline, where `play()` no-ops. -/
theorem C4_restart_equals_play_on_nonempty (s : AnimationSequencer)
    (h : tlDuration s.tweens ≠ 0) : (play s).1 = (restart s).1 := by
  simp [play, restart, h]

/-- C4 witness: the amended equivalence at the one-wait sequencer, whose
timeline lasts 1 s. -/
theorem C4_restart_equals_play_on_nonempty_witness :
    tlDuration seqOneWaitBuilt.tweens = 1
    ∧ (play seqOneWaitBuilt).1 = (restart seqOneWaitBuilt).1 :=
  ⟨by rw [seqOneWaitBuilt_eq]; exact tlDuration_oneWait,
   C4_restart_equals_play_on_nonempty seqOneWaitBuilt
     (by rw [seqOneWaitBuilt_eq, tlDuration_oneWait]; norm_num)⟩

/-- C5 counterexample: `build()` with a non-array behavior returns
before `timeline.clear()` runs, so on an instance whose behavior was
reassigned to a non-array after an earlier successful build, the stale
one-tween timeline survives — the sequencer is NOT left with an empty
timeline.  The error is logged and nothing is thrown. -/
theorem C5_counterexample_stale_timeline_survives :
    (build 1920 staleSeq).2 = [.errorNotArray]
    ∧ (build 1920 staleSeq).1.tweens.length = 1
    ∧ (build 1920 staleSeq).1.tweens ≠ [] := by
  refine ⟨by decide, by decide, by decide⟩

/-- C5 amended: `build()` on a non-array behavior logs an error and
returns the sequencer completely unchanged (the model is total, so no
exception crosses the boundary).  On a fresh instance this leaves the
idle state with an empty timeline, but it does not clear a timeline
left over from an earlier successful build. -/
theorem C5_build_non_array_no_op (w : ℚ) (s : AnimationSequencer)
    (h : s.behavior = .notArr) : build w s = (s, [.errorNotArray]) := by
  simp [build, h]

/-- C5 witness: the amended statement at the stale sequencer. -/
theorem C5_build_non_array_no_op_witness :
    build 1920 staleSeq = (staleSeq, [.errorNotArray]) :=
  C5_build_non_array_no_op 1920 staleSeq rfl

/-- C6: a behavior array containing one invalid step (non-object,
unknown step type, unknown animation preset, missing animate name, or
missing/empty `animate_property` list) among valid steps builds exactly
the timeline of the remaining steps in their array order — the invalid
step alone is skipped — and a `console.warn` entry is logged for it.
The model's `build` is a total function, so no exception reaches the
caller (matching the source's per-step try/catch). -/
theorem C6_invalid_step_skipped (w : ℚ) (xs ys : List Step) (st : Step)
    (hinv : stepInvalid w st = true) :
    (build w (mkAnimationSequencer (some (.arr (xs ++ st :: ys))))).1.tweens =
      (build w (mkAnimationSequencer (some (.arr (xs ++ ys))))).1.tweens
    ∧ ∃ e ∈ (build w (mkAnimationSequencer (some (.arr (xs ++ st :: ys))))).2,
        isWarn e = true := by
  constructor
  · simpa [build, mkAnimationSequencer] using
      buildSteps_skip w st hinv xs 0 [] ys
  · simpa [build, mkAnimationSequencer] using
      buildSteps_warn w st hinv xs 0 [] ys

/-- C6 witness: a non-object step between two valid wait steps is
skipped with a warning, and the built timeline equals that of the two
waits alone. -/
theorem C6_invalid_step_skipped_witness :
    stepInvalid 1920 Step.nonObj = true
    ∧ ((build 1920 (mkAnimationSequencer
          (some (.arr ([waitStep 1000] ++ Step.nonObj :: [waitStep 2000]))))).1.tweens =
        (build 1920 (mkAnimationSequencer
          (some (.arr ([waitStep 1000] ++ [waitStep 2000]))))).1.tweens
      ∧ ∃ e ∈ (build 1920 (mkAnimationSequencer
          (some (.arr ([waitStep 1000] ++ Step.nonObj :: [waitStep 2000]))))).2,
          isWarn e = true) :=
  ⟨rfl, C6_invalid_step_skipped 1920 [waitStep 1000] [waitStep 2000] Step.nonObj rfl⟩

/-- C7: `validate("image", {foo: 1, opacity: 2})` returns `ok = false`
with exactly two errors — the unknown property `foo` and the
out-of-range `opacity` — and, in general, every key outside the
element type's allow-list contributes its own error to any successful
validation result (violations are collected, not fail-fast). -/
theorem C7_validator_collects_all_violations :
    validate_element_properties "image" [("foo", .pnum 1), ("opacity", .pnum 2)] =
      .ok (false, [.notAllowed "foo" "image", .opacityRange])
    ∧ ∀ (et : String) (props : List (String × PVal)) (b : Bool)
        (errs : List ValErr) (k : String) (v : PVal),
        validate_element_properties et props = .ok (b, errs) →
        (k, v) ∈ props →
        (((ELEMENT_PROPERTY_SCHEMAS.lookup et).getD []).contains k) = false →
        ValErr.notAllowed k et ∈ errs := by
  constructor
  · rfl
  · intro et props b errs k v h hmem hcontains
    have hkey : ValErr.notAllowed k et ∈ props.filterMap fun kv =>
        if (((ELEMENT_PROPERTY_SCHEMAS.lookup et).getD []).contains kv.1) then none
        else some (ValErr.notAllowed kv.1 et) := by
      rw [List.mem_filterMap]
      exact ⟨(k, v), hmem, by rw [hcontains]; rfl⟩
    unfold validate_element_properties at h
    split at h
    · rw [Except.ok.injEq, Prod.mk.injEq] at h
      rw [← h.2]
      exact List.mem_append_left _ (List.mem_append_left _ hkey)
    · exact absurd h (by simp)
    · rw [Except.ok.injEq, Prod.mk.injEq] at h
      rw [← h.2]
      exact List.mem_append_left _ hkey

/-- C7 witness: the universally quantified collection property applied
at the concrete two-error input. -/
theorem C7_validator_collects_all_violations_witness :
    ValErr.notAllowed "foo" "image" ∈
      [ValErr.notAllowed "foo" "image", ValErr.opacityRange] :=
  C7_validator_collects_all_violations.2 "image"
    [("foo", .pnum 1), ("opacity", .pnum 2)] false
    [.notAllowed "foo" "image", .opacityRange] "foo" (.pnum 1)
    C7_validator_collects_all_violations.1 (List.mem_cons_self _ _) rfl

/-- C8 counterexample: an `image` properties map whose `size` is far out
of range (`width = 5`, `height = -1`) and whose `position.anchor` is not
one of the nine enum values passes validation with `ok = true` and no
errors — the validator never inspects `size` values or `anchor`. -/
theorem C8_counterexample_size_anchor_unchecked :
    validate_element_properties "image" badSizeAnchorProps = .ok (true, []) := by
  rfl

/-- C8 amended: the validator structurally checks only `position.x`,
`position.y` and `opacity` (numbers in `[0,1]`) besides the per-type key
allow-list; `size.width`/`size.height` values and the `anchor` field are
accepted whatever they are. -/
theorem C8_size_and_anchor_never_validated (sizeVal anchorVal : PVal) :
    validate_element_properties "image"
      [("size", sizeVal),
       ("position", .pdict [("x", .pnum 0), ("y", .pnum 1),
                            ("anchor", anchorVal)])] = .ok (true, []) := by
  rfl

/-- C9: a JavaScript-falsy `duration` field (explicit `0` or absent) is
replaced by the step type's default — 500 ms for `appear` and
`disappear`, 1000 ms for `animate` and `wait`, 1000 ms per
`animate_property` entry — so a zero duration builds the very same
tweens as an omitted one and never yields a zero-length operation. -/
theorem C9_falsy_duration_gets_default (w : ℚ) (d : Option ℚ)
    (h : jsFalsyNum d) : defaultDurationSpec w d := by
  rcases h with h | h <;> subst h <;>
    refine ⟨⟨rfl, ?_⟩, ⟨rfl, ?_⟩, ⟨rfl, ?_⟩, ⟨rfl, ?_⟩, ⟨rfl, ?_⟩⟩ <;>
    norm_num +decide [addStep, stepTypeOf, addAppearStep, addDisappearStep,
      addAnimateStep, addWaitStep, addAnimatePropertyStep, addTween,
      resolvePosition, tlDuration, jsOrNum, jsOrStr, buildAnimationProps_fadeIn,
      buildAnimationProps_fadeOut, buildAnimationProps_spin,
      List.enum, List.enumFrom]

/-- C9 witness: the default-duration contract at the explicit duration
`0`. -/
theorem C9_falsy_duration_gets_default_witness :
    jsFalsyNum (some 0) ∧ defaultDurationSpec 1920 (some 0) :=
  ⟨Or.inr rfl, C9_falsy_duration_gets_default 1920 (some 0) (Or.inr rfl)⟩

/-- C10: when the sequencer is not playing, or the argument is falsy or
not of type object, `updateProperties` returns with the sequencer state
unchanged, no DOM write and no log — the patch is silently discarded,
and since the state is returned untouched nothing is queued for later. -/
theorem C10_update_properties_noop (s : AnimationSequencer) (p : JsArg)
    (h : (!s.isPlaying || !jsTruthy p || !typeofIsObject p) = true) :
    updateProperties s p = (s, [], []) := by
  simp only [updateProperties, h, if_true]

/-- C10 witness: a fresh (non-playing) sequencer discards an object
patch, and a playing sequencer discards a null patch. -/
theorem C10_update_properties_noop_witness :
    updateProperties (mkAnimationSequencer none) (.aobj [("opacity", .lnum 1)]) =
      (mkAnimationSequencer none, [], [])
    ∧ updateProperties playingSeq .anull = (playingSeq, [], []) :=
  ⟨C10_update_properties_noop (mkAnimationSequencer none)
      (.aobj [("opacity", .lnum 1)]) rfl,
   C10_update_properties_noop playingSeq .anull (by rw [playingSeq_eq]; decide)⟩

end StreamCompanion
